import Mathlib

/-!
# Verification of the telehealth signaling relay and session lifecycle

Shallow embedding of the telehealth core of the `shrm-backend` repository:

* `src/telehealth/consumers.py` — `VideoSessionConsumer` (WebSocket signaling relay);
* `src/telehealth/views.py` — `TelehealthSessionViewSet` (session lifecycle
  transitions `start`/`end`/`cancel`, `retrieve` with lazy `room_id`
  assignment, and `create_emergency`);
* `src/telehealth/serializers.py` — writable-field set of
  `TelehealthSessionSerializer`, used by update (PUT/PATCH);
* the Room Presence Tracker of spec §4.1, which has no implementation in the
  repository and is modelled from the spec.

Python's dynamic values are embedded as a small JSON value type `JVal`;
Django model rows become Lean structures; each handler becomes a pure
function from its inputs to the list of side-effecting actions it performs,
in program order.
-/

/-- A JSON scalar value as handled by `json.loads`/`json.dumps` in
`consumers.py`.  The relay treats message payloads opaquely (it only copies
them between frames), so scalar payloads suffice to represent every payload
the relay can distinguish. -/
inductive JVal where
  | null : JVal
  | bool (b : Bool) : JVal
  | num (n : Int) : JVal
  | str (s : String) : JVal
deriving DecidableEq, Repr

/-- A parsed JSON object: the shape `json.loads` yields for an inbound frame
and the shape `json.dumps` receives for an outbound frame. -/
abbrev JObj := List (String × JVal)

/-- An event published on the channel layer by `group_send` in
`consumers.py`: each constructor mirrors the dict literal built at the
corresponding `group_send` call site, with its `sender_channel` tag. -/
inductive GroupEvent where
  | participant_joined (user_id : String) (sender_channel : String) : GroupEvent
  | participant_left (user_id : String) (sender_channel : String) : GroupEvent
  | webrtc_offer (offer : JVal) (sender_channel : String) : GroupEvent
  | webrtc_answer (answer : JVal) (sender_channel : String) : GroupEvent
  | webrtc_ice_candidate (candidate : JVal) (sender_channel : String) : GroupEvent
  | chat_message (message : JVal) (sender_id : String) (sender_name : JVal)
      (timestamp : JVal) (sender_channel : String) : GroupEvent
deriving DecidableEq, Repr

/-- The `sender_channel` tag attached to every published event. -/
def GroupEvent.sender : GroupEvent → String
  | .participant_joined _ c => c
  | .participant_left _ c => c
  | .webrtc_offer _ c => c
  | .webrtc_answer _ c => c
  | .webrtc_ice_candidate _ c => c
  | .chat_message _ _ _ _ c => c

/-- Whether the event is a chat message (`type: 'chat_message'`). -/
def GroupEvent.isChat : GroupEvent → Bool
  | .chat_message _ _ _ _ _ => true
  | _ => false

/-- A side-effecting action of `VideoSessionConsumer`, in the order the
handler performs it: accepting or closing the WebSocket, joining or leaving
the room group, or publishing an event to the group. -/
inductive ConsumerAction where
  | acceptConn : ConsumerAction
  | closeConn : ConsumerAction
  | groupAdd (group : String) (channel : String) : ConsumerAction
  | groupDiscard (group : String) (channel : String) : ConsumerAction
  | groupSend (group : String) (e : GroupEvent) : ConsumerAction
deriving DecidableEq, Repr

/-- The room group name, `f'video_session_{room_id}'` in
`VideoSessionConsumer.connect`. -/
def roomGroupName (room_id : String) : String :=
  "video_session_" ++ room_id

/-- `VideoSessionConsumer.connect` (consumers.py lines 26–63) as its action
trace.  `sessionExists` is the truth of `get_session(room_id)` returning a
row; `ch` is `self.channel_name`; `uid` is the user id string (or
`'anonymous'`).  When the session exists, the code accepts the connection
FIRST, then joins the room group, then announces the join. -/
def connect (room_id : String) (sessionExists : Bool) (ch uid : String) :
    List ConsumerAction :=
  if sessionExists then
    [ConsumerAction.acceptConn,
     ConsumerAction.groupAdd (roomGroupName room_id) ch,
     ConsumerAction.groupSend (roomGroupName room_id)
       (GroupEvent.participant_joined uid ch)]
  else
    [ConsumerAction.closeConn]

/-- `VideoSessionConsumer.disconnect` (consumers.py lines 65–83) as its
action trace: unconditionally publish a `participant_left` event, then
discard the group subscription. -/
def disconnect (room_id : String) (ch uid : String) : List ConsumerAction :=
  [ConsumerAction.groupSend (roomGroupName room_id)
     (GroupEvent.participant_left uid ch),
   ConsumerAction.groupDiscard (roomGroupName room_id) ch]

/-- `VideoSessionConsumer.receive` (consumers.py lines 85–151) as its action
trace.  `inbound = none` models `json.loads(text_data)` raising (or the
result not being a dict, so `.get` raises) — the `except` clause logs and
performs nothing.  On a parsed object the code dispatches on `data.get('type')`:
`handle_offer`/`handle_answer`/`handle_ice_candidate`/`handle_chat_message`
read `data['offer']`/`data['answer']`/`data['candidate']`/`data['message']`
(a missing key raises `KeyError`, caught by the same `except`: nothing is
published), and an unknown type is logged and dropped. -/
def receive (room_id : String) (ch uid : String) (inbound : Option JObj) :
    List ConsumerAction :=
  match inbound with
  | none => []
  | some data =>
    match data.lookup "type" with
    | some (JVal.str "offer") =>
      match data.lookup "offer" with
      | some v => [ConsumerAction.groupSend (roomGroupName room_id)
          (GroupEvent.webrtc_offer v ch)]
      | none => []
    | some (JVal.str "answer") =>
      match data.lookup "answer" with
      | some v => [ConsumerAction.groupSend (roomGroupName room_id)
          (GroupEvent.webrtc_answer v ch)]
      | none => []
    | some (JVal.str "ice_candidate") =>
      match data.lookup "candidate" with
      | some v => [ConsumerAction.groupSend (roomGroupName room_id)
          (GroupEvent.webrtc_ice_candidate v ch)]
      | none => []
    | some (JVal.str "chat") =>
      match data.lookup "message" with
      | some m => [ConsumerAction.groupSend (roomGroupName room_id)
          (GroupEvent.chat_message m uid
            ((data.lookup "sender_name").getD (JVal.str "Anonymous"))
            ((data.lookup "timestamp").getD JVal.null) ch)]
      | none => []
    | _ => []

/-- The channel-layer delivery handlers of `VideoSessionConsumer`
(consumers.py lines 155–208): given the receiving connection's
`self.channel_name` and a delivered event, the frame `self.send` writes to
that client, or `none` when the handler discards the event.  Every handler
except `chat_message` discards when `event['sender_channel']` equals the
receiver's own channel name; `chat_message` sends unconditionally. -/
def deliver (ch : String) (e : GroupEvent) : Option JObj :=
  match e with
  | .participant_joined uid sender =>
    if sender = ch then none
    else some [("type", JVal.str "participant_joined"), ("user_id", JVal.str uid)]
  | .participant_left uid sender =>
    if sender = ch then none
    else some [("type", JVal.str "participant_left"), ("user_id", JVal.str uid)]
  | .webrtc_offer o sender =>
    if sender = ch then none
    else some [("type", JVal.str "offer"), ("offer", o)]
  | .webrtc_answer a sender =>
    if sender = ch then none
    else some [("type", JVal.str "answer"), ("answer", a)]
  | .webrtc_ice_candidate c sender =>
    if sender = ch then none
    else some [("type", JVal.str "ice_candidate"), ("candidate", c)]
  | .chat_message m sid sname ts _sender =>
    some [("type", JVal.str "chat"), ("message", m), ("sender_id", JVal.str sid),
          ("sender_name", sname), ("timestamp", ts)]

/-- Publication of one event to a room group: the channel layer delivers the
event to every subscribed channel, and each channel's handler (`deliver`)
decides whether to forward a frame to its client.  Returns the list of
(channel, frame) pairs actually sent to clients. -/
def fanout (room : List String) (e : GroupEvent) : List (String × JObj) :=
  room.filterMap fun ch => (deliver ch e).map fun f => (ch, f)

/-- The events a trace of consumer actions publishes to the channel layer. -/
def publishedEvents (acts : List ConsumerAction) : List GroupEvent :=
  acts.filterMap fun a =>
    match a with
    | ConsumerAction.groupSend _ e => some e
    | _ => none

/-- End-to-end relay of one inbound frame: the sender's `receive` runs, and
every event it publishes is fanned out to the room's subscribed channels.
Returns the (channel, frame) pairs delivered to clients. -/
def relayInbound (room : List String) (room_id : String) (senderCh senderUid : String)
    (inbound : Option JObj) : List (String × JObj) :=
  ((publishedEvents (receive room_id senderCh senderUid inbound)).map
    (fanout room)).flatten

/-! ## Session lifecycle (`src/telehealth/views.py`, `models.py`) -/

/-- `TelehealthSession.STATUS_CHOICES` (models.py lines 16–21). -/
inductive SessionStatus where
  | scheduled : SessionStatus
  | inProgress : SessionStatus
  | completed : SessionStatus
  | cancelled : SessionStatus
deriving DecidableEq, Repr

/-- The fields of a `TelehealthSession` row (models.py lines 12–62) that the
lifecycle operations read or write.  Timestamps are abstract `Nat` instants;
nullable columns are `Option`. -/
structure Session where
  title : String
  patientId : Option Nat
  therapistId : Nat
  scheduled_at : Nat
  duration : Nat
  status : SessionStatus
  is_emergency : Bool
  session_url : Option String
  room_id : Option String
  notes : Option String
  started_at : Option Nat
  ended_at : Option Nat
deriving DecidableEq, Repr

/-- `TelehealthSessionViewSet.start` (views.py lines 154–180).  Returns the
HTTP response (an error body or the saved row) paired with the row as it
stands in the database afterwards: on the guard failure the handler returns
400 before any mutation, so the stored row is unchanged. -/
def start (now : Nat) (s : Session) : Except String Session × Session :=
  if s.status ≠ SessionStatus.scheduled then
    (Except.error "Session must be scheduled to start.", s)
  else
    let s' := { s with status := SessionStatus.inProgress, started_at := some now }
    (Except.ok s', s')

/-- `TelehealthSessionViewSet.end` (views.py lines 182–208), with the same
response/row pairing as `start`. -/
def endSession (now : Nat) (s : Session) : Except String Session × Session :=
  if s.status ≠ SessionStatus.inProgress then
    (Except.error "Session must be in progress to end.", s)
  else
    let s' := { s with status := SessionStatus.completed, ended_at := some now }
    (Except.ok s', s')

/-- `TelehealthSessionViewSet.cancel` (views.py lines 210–235): guarded on
`status in ['completed', 'cancelled']`; sets only `status` (neither
timestamp is touched). -/
def cancel (s : Session) : Except String Session × Session :=
  if s.status = SessionStatus.completed ∨ s.status = SessionStatus.cancelled then
    (Except.error "Cannot cancel a completed or already cancelled session.", s)
  else
    let s' := { s with status := SessionStatus.cancelled }
    (Except.ok s', s')

/-- `TelehealthSessionViewSet.retrieve` (views.py lines 46–54): Python's
`if not instance.room_id` is true when `room_id` is `None` or the empty
string, in which case a fresh UUID (`freshUuid`, the value
`str(uuid.uuid4())` produced) is assigned and saved.  Returns the serialized
row paired with the stored row. -/
def retrieve (freshUuid : String) (s : Session) : Session × Session :=
  if s.room_id.getD "" = "" then
    let s' := { s with room_id := some freshUuid }
    (s', s')
  else
    (s, s)

/-- The payload of a PUT/PATCH update through `TelehealthSessionSerializer`
(serializers.py lines 11–71): a field is `some v` when the client supplied
it.  Only fields listed in `Meta.fields` and not in `Meta.read_only_fields`
are writable; `read_only_fields` is only `['id', 'created_at',
'updated_at']`, so `room_id`, `status`, `session_url`, `notes`, `title`,
`started_at` and `ended_at` are all client-writable. -/
structure UpdatePayload where
  title : Option String := none
  status : Option SessionStatus := none
  session_url : Option (Option String) := none
  room_id : Option (Option String) := none
  notes : Option (Option String) := none
  started_at : Option (Option Nat) := none
  ended_at : Option (Option Nat) := none
deriving Repr

/-- A PUT/PATCH update (`ModelViewSet.update` → `serializer.save()` with the
writable fields of `TelehealthSessionSerializer`): each supplied writable
field overwrites the stored one. -/
def updateSession (p : UpdatePayload) (s : Session) : Session :=
  { s with
    title := p.title.getD s.title
    status := p.status.getD s.status
    session_url := p.session_url.getD s.session_url
    room_id := p.room_id.getD s.room_id
    notes := p.notes.getD s.notes
    started_at := p.started_at.getD s.started_at
    ended_at := p.ended_at.getD s.ended_at }

/-! ## Emergency session workflow (`views.py`, `create_emergency`) -/

/-- A `users.models.User` row as read by `create_emergency`. -/
structure User where
  id : Nat
  role : String
  first_name : String
  last_name : String
  email : String
deriving DecidableEq, Repr

/-- The HTTP outcome of `create_emergency`. -/
inductive EmergencyResult where
  | forbidden (msg : String) : EmergencyResult
  | badRequest (msg : String) : EmergencyResult
  | notFound (msg : String) : EmergencyResult
  | created (s : Session) : EmergencyResult
deriving DecidableEq, Repr

/-- The observable outcome of the background email thread spawned by
`create_emergency` (views.py lines 363–428): the thread either logs a
successful send or catches the exception and logs a failure; in both cases
it only logs. -/
inductive EmailLog where
  | sent (recipient : String) : EmailLog
  | failed (recipient : String) : EmailLog
deriving DecidableEq, Repr

/-- `TelehealthSessionViewSet.create_emergency` (views.py lines 306–445).
`userLookup` is `User.objects.get(id=...)` (`none` models `DoesNotExist`);
`room_id` is the generated `str(uuid.uuid4())`; `frontendUrl` is
`settings.FRONTEND_URL`; `emailSendable` is whether the background
`send_mail` call will succeed.  Returns the HTTP response paired with the
log the daemon email thread eventually writes.  The response is computed
and returned without waiting on the thread: the email outcome can only
influence the `EmailLog` component. -/
def create_emergency (caller : User) (patient_id : Option Nat)
    (userLookup : Nat → Option User) (room_id : String) (now : Nat)
    (frontendUrl : String) (emailSendable : Bool) :
    EmergencyResult × List EmailLog :=
  if ¬ (caller.role = "admin" ∨ caller.role = "therapist" ∨ caller.role = "staff") then
    (EmergencyResult.forbidden
      "Only therapists, staff, and admins can create emergency sessions.", [])
  else
    match patient_id with
    | none =>
      (EmergencyResult.badRequest "patient_id is required for emergency sessions", [])
    | some pid =>
      match userLookup pid with
      | none => (EmergencyResult.notFound "Patient not found", [])
      | some patient =>
        if patient.role ≠ "client" then
          (EmergencyResult.badRequest "Selected user is not a patient", [])
        else
          let patient_name := patient.first_name ++ " " ++ patient.last_name
          let sess : Session :=
            { title := "Emergency Session - " ++ patient_name
              patientId := some patient.id
              therapistId := caller.id
              scheduled_at := now
              duration := 30
              status := SessionStatus.scheduled
              is_emergency := true
              session_url := some (frontendUrl ++ "/telehealth/join/" ++ room_id)
              room_id := some room_id
              notes := none
              started_at := none
              ended_at := none }
          (EmergencyResult.created sess,
           [if emailSendable then EmailLog.sent patient.email
            else EmailLog.failed patient.email])

/-! ## Room Presence Tracker (spec §4.1, no implementation in the repository) -/

/-- Modelled from the spec: the Room Presence Tracker of §4.1 has no
implementation anywhere in the repository (the consumer relies on the
channel layer alone), so its backing store is modelled from the spec's
words: per room identifier, the set of currently-connected participant
handles, held as an association list from room id to a duplicate-free
member list. -/
abbrev PresenceStore := List (String × List String)

/-- Modelled from the spec: `count(room_id)` — "returns current membership
count (0 if no entry)". -/
def Presence.count (room : String) (store : PresenceStore) : Nat :=
  ((store.lookup room).getD []).length

/-- Whether an entry's key differs from the given room. -/
def keyIsNot (room : String) (p : String × List String) : Bool :=
  ! (p.1 == room)

/-- Replace (or create) a room's entry in the store. -/
def Presence.setRoom (room : String) (members : List String)
    (store : PresenceStore) : PresenceStore :=
  (room, members) :: store.filter (keyIsNot room)

/-- Delete a room's entry from the store. -/
def Presence.delRoom (room : String) (store : PresenceStore) : PresenceStore :=
  store.filter (keyIsNot room)

/-- Modelled from the spec: `join(room_id, connection_handle)` —
"idempotently adds the handle to the room's membership set; resets the
entry's TTL; returns the new membership count". -/
def Presence.join (room h : String) (store : PresenceStore) :
    PresenceStore × Nat :=
  let members := (store.lookup room).getD []
  let members' := if h ∈ members then members else members ++ [h]
  (Presence.setRoom room members' store, members'.length)

/-- Modelled from the spec: `leave(room_id, connection_handle)` — "removes
the handle; if the resulting set is empty, deletes the room entry; returns
the new membership count (0 if deleted)". -/
def Presence.leave (room h : String) (store : PresenceStore) :
    PresenceStore × Nat :=
  match store.lookup room with
  | none => (store, 0)
  | some members =>
    let members' := members.erase h
    if members' = [] then (Presence.delRoom room store, 0)
    else (Presence.setRoom room members' store, members'.length)

/-- One call in a sequence against the Presence Tracker. -/
inductive PresenceOp where
  | join (room h : String) : PresenceOp
  | leave (room h : String) : PresenceOp
deriving DecidableEq, Repr

/-- Apply one tracker call to the store. -/
def Presence.stepOp (store : PresenceStore) (op : PresenceOp) : PresenceStore :=
  match op with
  | PresenceOp.join r h => (Presence.join r h store).1
  | PresenceOp.leave r h => (Presence.leave r h store).1

/-- The store after a sequence of tracker calls, starting empty. -/
def Presence.run (ops : List PresenceOp) : PresenceStore :=
  ops.foldl Presence.stepOp []

/-- The member list currently recorded for a room. -/
def Presence.membersIn (store : PresenceStore) (room : String) : List String :=
  (store.lookup room).getD []

/-- Whether a tracker call targets the given room and handle. -/
def PresenceOp.targets (op : PresenceOp) (r h : String) : Bool :=
  match op with
  | PresenceOp.join r' h' => r' = r && h' = h
  | PresenceOp.leave r' h' => r' = r && h' = h

/-- Whether a tracker call is a `join`. -/
def PresenceOp.isJoin : PresenceOp → Bool
  | PresenceOp.join _ _ => true
  | PresenceOp.leave _ _ => false

/-- The room a tracker call targets. -/
def PresenceOp.room : PresenceOp → String
  | PresenceOp.join r _ => r
  | PresenceOp.leave r _ => r

/-- Whether the most recent call in `ops` targeting `(r, h)` is a join
(false when no call targets the pair). -/
def lastIsJoin (ops : List PresenceOp) (r h : String) : Bool :=
  match ops.reverse.find? (fun op => op.targets r h) with
  | some op => op.isJoin
  | none => false

/-- The number of `join(r, h)` calls in the sequence. -/
def joinCountOf (ops : List PresenceOp) (r h : String) : Nat :=
  (ops.filter fun op => op = PresenceOp.join r h).length

/-- The number of `leave(r, h)` calls in the sequence. -/
def leaveCountOf (ops : List PresenceOp) (r h : String) : Nat :=
  (ops.filter fun op => op = PresenceOp.leave r h).length

/-- The distinct handles a sequence mentions for a room. -/
def handlesOf (ops : List PresenceOp) (r : String) : List String :=
  (ops.filterMap fun op =>
    match op with
    | PresenceOp.join r' h' => if r' = r then some h' else none
    | PresenceOp.leave r' h' => if r' = r then some h' else none).dedup

/-- The claim's own count predicate, taken verbatim from the spec's words:
the distinct handles "with more joins than leaves" in the sequence. -/
def moreJoinsHandles (ops : List PresenceOp) (r : String) : List String :=
  (handlesOf ops r).filter fun h => leaveCountOf ops r h < joinCountOf ops r h

/-! ## Sample rows used by witnesses and counterexamples -/

/-- A sample scheduled session. -/
def sampleScheduled : Session :=
  { title := "Therapy", patientId := some 7, therapistId := 3, scheduled_at := 100
    duration := 30, status := SessionStatus.scheduled, is_emergency := false
    session_url := none, room_id := none, notes := none
    started_at := none, ended_at := none }

/-- A sample completed session. -/
def sampleCompleted : Session :=
  { sampleScheduled with status := SessionStatus.completed
                         started_at := some 100, ended_at := some 130 }

/-- A sample cancelled session. -/
def sampleCancelled : Session :=
  { sampleScheduled with status := SessionStatus.cancelled }

/-- A sample session that already carries a room id. -/
def sampleWithRoom : Session :=
  { sampleScheduled with room_id := some "room-1" }

/-- Whether an `Except` result is a success. -/
def isSuccess {ε α : Type} : Except ε α → Bool
  | Except.ok _ => true
  | Except.error _ => false

/-- C1: for every session, `start` succeeds iff the status is `scheduled`
(setting status to `in-progress` and `started_at` to now), `end` succeeds
iff the status is `in-progress` (setting status to `completed` and
`ended_at` to now), `cancel` succeeds iff the status is neither `completed`
nor `cancelled` (setting status to `cancelled`); every failing attempt
returns an error and leaves the stored row — in particular `status`,
`started_at` and `ended_at` — unchanged. -/
theorem C1_lifecycle (s : Session) (now : Nat) :
    (isSuccess (start now s).1 = true ↔ s.status = SessionStatus.scheduled)
    ∧ (s.status = SessionStatus.scheduled →
        start now s =
          (Except.ok { s with status := SessionStatus.inProgress, started_at := some now },
           { s with status := SessionStatus.inProgress, started_at := some now }))
    ∧ (s.status ≠ SessionStatus.scheduled →
        start now s = (Except.error "Session must be scheduled to start.", s))
    ∧ (isSuccess (endSession now s).1 = true ↔ s.status = SessionStatus.inProgress)
    ∧ (s.status = SessionStatus.inProgress →
        endSession now s =
          (Except.ok { s with status := SessionStatus.completed, ended_at := some now },
           { s with status := SessionStatus.completed, ended_at := some now }))
    ∧ (s.status ≠ SessionStatus.inProgress →
        endSession now s = (Except.error "Session must be in progress to end.", s))
    ∧ (isSuccess (cancel s).1 = true ↔
        (s.status ≠ SessionStatus.completed ∧ s.status ≠ SessionStatus.cancelled))
    ∧ (s.status ≠ SessionStatus.completed ∧ s.status ≠ SessionStatus.cancelled →
        cancel s =
          (Except.ok { s with status := SessionStatus.cancelled },
           { s with status := SessionStatus.cancelled }))
    ∧ (s.status = SessionStatus.completed ∨ s.status = SessionStatus.cancelled →
        cancel s = (Except.error "Cannot cancel a completed or already cancelled session.", s)) := by
  cases hs : s.status <;>
    simp [start, endSession, cancel, isSuccess, hs]

/-- Witness for C1 at a concrete scheduled session. -/
theorem C1_lifecycle_witness :
    start 5 sampleScheduled =
      (Except.ok
        { sampleScheduled with
          status := SessionStatus.inProgress
          started_at := some 5 },
       { sampleScheduled with
         status := SessionStatus.inProgress
         started_at := some 5 }) :=
  (C1_lifecycle sampleScheduled 5).2.1 (by decide)

/-- C8, as stated, is false: the error body returned for an illegal
transition is a fixed per-operation string that does not name the current
state — two sessions in different states (`completed` vs `cancelled`)
receive the identical error from `start`. -/
theorem C8_counterexample :
    (start 0 sampleCompleted).1 = Except.error "Session must be scheduled to start."
    ∧ (start 0 sampleCancelled).1 = Except.error "Session must be scheduled to start."
    ∧ sampleCompleted.status ≠ sampleCancelled.status := by
  refine ⟨rfl, rfl, by decide⟩

/-- C8 amended: whenever a lifecycle transition is attempted from a state
violating its precondition, the operation returns a structured 400 error
naming the attempted operation and its required state (a fixed string per
operation, not mentioning the current state), and the stored row is
entirely unchanged (no partial mutation). -/
theorem C8_amended (s : Session) (now : Nat) :
    (s.status ≠ SessionStatus.scheduled →
      start now s = (Except.error "Session must be scheduled to start.", s))
    ∧ (s.status ≠ SessionStatus.inProgress →
      endSession now s = (Except.error "Session must be in progress to end.", s))
    ∧ (s.status = SessionStatus.completed ∨ s.status = SessionStatus.cancelled →
      cancel s = (Except.error "Cannot cancel a completed or already cancelled session.", s)) := by
  cases hs : s.status <;> simp [start, endSession, cancel, hs]

/-- Witness for C8 at a concrete completed session. -/
theorem C8_amended_witness :
    start 0 sampleCompleted = (Except.error "Session must be scheduled to start.", sampleCompleted) :=
  (C8_amended sampleCompleted 0).1 (by decide)

/-- C2, as stated, is false: a chat message published by a connection is
delivered back to the connection handle that sent it.  In room
`["chanA", "chanB"]`, `chanA` sends `{"type": "chat", "message": "hi"}` and
the relay delivers the resulting chat frame to `chanA` itself (the
`chat_message` handler has no sender filter). -/
theorem C2_counterexample :
    ("chanA",
      [("type", JVal.str "chat"), ("message", JVal.str "hi"),
       ("sender_id", JVal.str "u1"), ("sender_name", JVal.str "Anonymous"),
       ("timestamp", JVal.null)]) ∈
      relayInbound ["chanA", "chanB"] "room1" "chanA" "u1"
        (some [("type", JVal.str "chat"), ("message", JVal.str "hi")]) := by
  decide

/-- C2 amended: for every non-chat event (join/left announcements, WebRTC
offers, answers, ICE candidates) the relay never delivers the event back to
the connection handle that published it and delivers a frame to every other
connection in the room; chat messages, however, are delivered to every
connection in the room including the sender. -/
theorem C2_amended (room : List String) (e : GroupEvent) (ch : String)
    (hmem : ch ∈ room) :
    (e.isChat = false → e.sender = ch → deliver ch e = none)
    ∧ (e.isChat = false → e.sender ≠ ch → ∃ f, (ch, f) ∈ fanout room e)
    ∧ (e.isChat = true → ∃ f, (ch, f) ∈ fanout room e) := by
  refine ⟨?_, ?_, ?_⟩
  · intro hc hs
    cases e <;> simp_all [deliver, GroupEvent.isChat, GroupEvent.sender]
  · intro hc hs
    have : ∃ f, deliver ch e = some f := by
      cases e <;> simp_all [deliver, GroupEvent.isChat, GroupEvent.sender]
    obtain ⟨f, hf⟩ := this
    exact ⟨f, List.mem_filterMap.mpr ⟨ch, hmem, by simp [hf]⟩⟩
  · intro hc
    have : ∃ f, deliver ch e = some f := by
      cases e <;> simp_all [deliver, GroupEvent.isChat]
    obtain ⟨f, hf⟩ := this
    exact ⟨f, List.mem_filterMap.mpr ⟨ch, hmem, by simp [hf]⟩⟩

/-- Witness for C2 at a concrete offer event: the receiver `chanB` is in the
room, the event is not a chat, and its sender is `chanA`. -/
theorem C2_amended_witness :
    deliver "chanA" (GroupEvent.webrtc_offer (JVal.str "X") "chanA") = none :=
  ((C2_amended ["chanA", "chanB"] (GroupEvent.webrtc_offer (JVal.str "X") "chanA")
    "chanA" (by decide)).1) (by decide) (by decide)

/-- C5, as stated, is false: when `chanA` sends the inbound frame
`{"type": "offer", "sdp": "X"}` in room `["chanA", "chanB"]`, nothing at all
is delivered — `handle_offer` reads `data['offer']`, which raises `KeyError`
on this frame; the exception is caught and the frame is dropped, so `chanB`
does not receive the frame the claim promises. -/
theorem C5_counterexample :
    relayInbound ["chanA", "chanB"] "room1" "chanA" "u1"
      (some [("type", JVal.str "offer"), ("sdp", JVal.str "X")]) = [] := by
  decide

/-- C5 amended: in a room with exactly two connections A and B, an inbound
frame `{"type": "offer", "offer": v}` from A is relayed to B as
`{"type": "offer", "offer": v}` and A receives nothing; the frame
`{"type": "offer", "sdp": "X"}` of the claim carries no `offer` key, so it
is dropped and neither connection receives anything. -/
theorem C5_amended (v : JVal) :
    relayInbound ["chanA", "chanB"] "room1" "chanA" "u1"
        (some [("type", JVal.str "offer"), ("offer", v)]) =
      [("chanB", [("type", JVal.str "offer"), ("offer", v)])]
    ∧ relayInbound ["chanA", "chanB"] "room1" "chanA" "u1"
        (some [("type", JVal.str "offer"), ("sdp", JVal.str "X")]) = [] := by
  constructor
  · rfl
  · rfl

/-- C6, as stated, is false: on a connect whose room matches a session, the
consumer's very first action is accepting the connection, and the
subscription (`group_add`) only happens afterwards — so acceptance occurs
while the connection is not yet subscribed. -/
theorem C6_counterexample :
    connect "room1" true "chanA" "u1" =
      [ConsumerAction.acceptConn,
       ConsumerAction.groupAdd "video_session_room1" "chanA",
       ConsumerAction.groupSend "video_session_room1"
         (GroupEvent.participant_joined "u1" "chanA")]
    ∧ (connect "room1" true "chanA" "u1").head? = some ConsumerAction.acceptConn := by
  refine ⟨rfl, rfl⟩

/-- C6 amended: on every connect whose room id matches an existing session,
the relay first accepts the connection (completes the protocol upgrade),
then subscribes the connection to the room's group, then announces the
join — i.e. acceptance always happens before the subscription, the opposite
order of the claim; when no session matches, the connection is closed
without being accepted. -/
theorem C6_amended (room_id ch uid : String) :
    connect room_id true ch uid =
      [ConsumerAction.acceptConn,
       ConsumerAction.groupAdd (roomGroupName room_id) ch,
       ConsumerAction.groupSend (roomGroupName room_id)
         (GroupEvent.participant_joined uid ch)]
    ∧ connect room_id false ch uid = [ConsumerAction.closeConn] := by
  exact ⟨rfl, rfl⟩

/-- The number of `participant_left` publications in an action trace. -/
def countLeft (acts : List ConsumerAction) : Nat :=
  acts.countP fun a =>
    match a with
    | ConsumerAction.groupSend _ (GroupEvent.participant_left _ _) => true
    | _ => false

/-- C7, as stated, is false: the disconnect handler publishes a
`participant_left` event unconditionally, so invoking it twice for the same
connection handle publishes two `participant_left` events, while one
invocation publishes one — the observable effects differ. -/
theorem C7_counterexample :
    countLeft (disconnect "room1" "chanA" "u1" ++ disconnect "room1" "chanA" "u1") = 2
    ∧ countLeft (disconnect "room1" "chanA" "u1") = 1 := by
  decide

/-- C7 amended: the disconnect handler is not idempotent — every invocation
unconditionally publishes exactly one `participant_left` event (then
discards the group subscription), so invoking it twice for the same handle
publishes two `participant_left` events; the consumer keeps no presence
count, so there is no presence decrement at all. -/
theorem C7_amended (room_id ch uid : String) :
    countLeft (disconnect room_id ch uid ++ disconnect room_id ch uid) = 2
    ∧ countLeft (disconnect room_id ch uid) = 1
    ∧ disconnect room_id ch uid =
        [ConsumerAction.groupSend (roomGroupName room_id)
           (GroupEvent.participant_left uid ch),
         ConsumerAction.groupDiscard (roomGroupName room_id) ch] := by
  refine ⟨?_, ?_, rfl⟩ <;> simp [disconnect, countLeft, List.countP_append, List.countP_cons]

/-- Whether the inbound frame is one the relay does not recognise: it failed
to parse as a JSON object, or its declared `type` is none of the four
dispatched kinds. -/
def isUnrecognized (inbound : Option JObj) : Bool :=
  match inbound with
  | none => true
  | some data =>
    match data.lookup "type" with
    | some (JVal.str "offer") => false
    | some (JVal.str "answer") => false
    | some (JVal.str "ice_candidate") => false
    | some (JVal.str "chat") => false
    | _ => true

/-- C9: every inbound frame that fails to parse, or whose declared type is
unrecognised, is dropped — `receive` publishes nothing, performs no action
at all, and in particular never closes the connection (the handler's
`except` clause only logs). -/
theorem C9_drop_unrecognized (room_id ch uid : String) (inbound : Option JObj)
    (h : isUnrecognized inbound = true) :
    receive room_id ch uid inbound = []
    ∧ ConsumerAction.closeConn ∉ receive room_id ch uid inbound := by
  have hrec : receive room_id ch uid inbound = [] := by
    cases inbound with
    | none => rfl
    | some data =>
      unfold isUnrecognized at h
      unfold receive
      dsimp only at h ⊢
      rcases htype : data.lookup "type" with _ | v
      · rfl
      · split <;> simp_all
  exact ⟨hrec, by simp [hrec]⟩

/-- Witness for C9 at a concrete frame with an unknown type. -/
theorem C9_drop_unrecognized_witness :
    receive "room1" "chanA" "u1" (some [("type", JVal.str "bogus")]) = []
    ∧ ConsumerAction.closeConn ∉
        receive "room1" "chanA" "u1" (some [("type", JVal.str "bogus")]) :=
  C9_drop_unrecognized "room1" "chanA" "u1"
    (some [("type", JVal.str "bogus")]) (by decide)

/-- The session row `create_emergency` builds for a given caller, patient,
generated room id, time and frontend URL (views.py lines 351–361). -/
def emergencySession (caller patient : User) (room_id : String) (now : Nat)
    (frontendUrl : String) : Session :=
  { title := "Emergency Session - " ++ (patient.first_name ++ " " ++ patient.last_name)
    patientId := some patient.id
    therapistId := caller.id
    scheduled_at := now
    duration := 30
    status := SessionStatus.scheduled
    is_emergency := true
    session_url := some (frontendUrl ++ "/telehealth/join/" ++ room_id)
    room_id := some room_id
    notes := none
    started_at := none
    ended_at := none }

/-- C3: `create_emergency`, invoked by a staff/therapist/admin caller naming
an existing user of the patient (`client`) role, returns 201 with the
created session — `is_emergency = true`, `room_id` the generated UUID,
status `scheduled` — and the response is identical whether the background
email send succeeds or fails: the notification outcome only shows up in the
email thread's log and never blocks, fails, or rolls back the creation. -/
theorem C3_emergency_nonblocking (caller : User) (pid : Nat)
    (userLookup : Nat → Option User) (patient : User) (room_id : String)
    (now : Nat) (frontendUrl : String)
    (hrole : caller.role = "admin" ∨ caller.role = "therapist" ∨ caller.role = "staff")
    (hfound : userLookup pid = some patient)
    (hclient : patient.role = "client") :
    (∀ emailSendable : Bool,
      (create_emergency caller (some pid) userLookup room_id now frontendUrl
          emailSendable).1 =
        EmergencyResult.created (emergencySession caller patient room_id now frontendUrl))
    ∧ (emergencySession caller patient room_id now frontendUrl).is_emergency = true
    ∧ (emergencySession caller patient room_id now frontendUrl).room_id = some room_id
    ∧ (emergencySession caller patient room_id now frontendUrl).status =
        SessionStatus.scheduled := by
  refine ⟨?_, rfl, rfl, rfl⟩
  intro emailSendable
  have hr : caller.role = "admin" ∨ caller.role = "therapist" ∨ caller.role = "staff" := hrole
  simp only [create_emergency, hfound, hclient, emergencySession]
  rcases hr with h | h | h <;> simp [h, hclient]

/-- A sample therapist. -/
def sampleTherapist : User :=
  { id := 3, role := "therapist", first_name := "Tess", last_name := "Moran"
    email := "tess@example.org" }

/-- A sample patient (role `client`). -/
def samplePatient : User :=
  { id := 7, role := "client", first_name := "Pat", last_name := "Rivera"
    email := "pat@example.org" }

/-- Witness for C3: the concrete therapist caller and patient, with a
failing email transport (`emailSendable = false`). -/
theorem C3_emergency_nonblocking_witness :
    (create_emergency sampleTherapist (some 7)
        (fun n => if n = 7 then some samplePatient else none) "room-uuid" 50
        "https://app.example.org" false).1 =
      EmergencyResult.created
        (emergencySession sampleTherapist samplePatient "room-uuid" 50
          "https://app.example.org") :=
  (C3_emergency_nonblocking sampleTherapist 7
    (fun n => if n = 7 then some samplePatient else none) samplePatient
    "room-uuid" 50 "https://app.example.org" (Or.inr (Or.inl rfl)) (by decide)
    (by decide)).1 false

/-- C4, as stated, is false: a PUT/PATCH update through
`TelehealthSessionSerializer` can change an already-assigned `room_id`,
because `room_id` is listed in `Meta.fields` and not in
`Meta.read_only_fields` — updating the sample session that carries
`room-1` with a payload naming `room-2` overwrites it. -/
theorem C4_counterexample :
    sampleWithRoom.room_id = some "room-1"
    ∧ (updateSession { room_id := some (some "room-2") } sampleWithRoom).room_id =
        some "room-2" := by
  exact ⟨rfl, rfl⟩

/-- C4 amended: `retrieve` assigns a fresh `room_id` only when none (or the
empty string) is present, returning the session with it set, and preserves
any non-empty `room_id` already assigned; the lifecycle transitions
(`start`, `end`, `cancel`) never change `room_id`; but a PUT/PATCH update
CAN change `room_id`, since the serializer leaves the field writable — the
stored `room_id` after an update is the payload's value whenever the
payload supplies one. -/
theorem C4_amended (s : Session) (fresh : String) (now : Nat) :
    (s.room_id.getD "" = "" →
      retrieve fresh s =
        ({ s with room_id := some fresh }, { s with room_id := some fresh }))
    ∧ (∀ r, s.room_id = some r → r ≠ "" → retrieve fresh s = (s, s))
    ∧ (start now s).2.room_id = s.room_id
    ∧ (endSession now s).2.room_id = s.room_id
    ∧ (cancel s).2.room_id = s.room_id
    ∧ (∀ p : UpdatePayload, (updateSession p s).room_id = p.room_id.getD s.room_id) := by
  refine ⟨?_, ?_, ?_, ?_, ?_, ?_⟩
  · intro h
    simp [retrieve, h]
  · intro r hr hne
    simp [retrieve, hr, hne]
  · unfold start
    split <;> rfl
  · unfold endSession
    split <;> rfl
  · unfold cancel
    split <;> rfl
  · intro p
    rfl

/-- Witness for C4 at the concrete session with no room id yet. -/
theorem C4_amended_witness :
    retrieve "fresh-uuid" sampleScheduled =
      ({ sampleScheduled with room_id := some "fresh-uuid" },
       { sampleScheduled with room_id := some "fresh-uuid" }) :=
  (C4_amended sampleScheduled "fresh-uuid" 0).1 (by decide)

/-! ## Presence Tracker lemmas -/

theorem keyIsNot_eq_false (r : String) (v : List String) :
    keyIsNot r (r, v) = false := by
  simp [keyIsNot]

theorem keyIsNot_eq_true (r k : String) (v : List String) (hk : k ≠ r) :
    keyIsNot r (k, v) = true := by
  simp [keyIsNot, hk]

theorem lookup_filter_ne (store : PresenceStore) (r r' : String) (hne : r ≠ r') :
    (store.filter (keyIsNot r')).lookup r = store.lookup r := by
  induction store with
  | nil => rfl
  | cons q rest ih =>
    obtain ⟨k, v⟩ := q
    by_cases hk : k = r'
    · subst hk
      rw [List.filter_cons, keyIsNot_eq_false, if_neg (by simp)]
      rw [ih, List.lookup_cons]
      have hb : (r == k) = false := by simp [hne]
      simp [hb]
    · rw [List.filter_cons, keyIsNot_eq_true r' k v hk, if_pos rfl]
      rw [List.lookup_cons, List.lookup_cons, ih]

theorem lookup_filter_self (store : PresenceStore) (r : String) :
    (store.filter (keyIsNot r)).lookup r = none := by
  induction store with
  | nil => rfl
  | cons q rest ih =>
    obtain ⟨k, v⟩ := q
    by_cases hk : k = r
    · subst hk
      rw [List.filter_cons, keyIsNot_eq_false, if_neg (by simp)]
      exact ih
    · rw [List.filter_cons, keyIsNot_eq_true r k v hk, if_pos rfl]
      rw [List.lookup_cons]
      have hb : (r == k) = false := beq_eq_false_iff_ne.mpr (Ne.symm hk)
      simp [hb, ih]

theorem membersIn_setRoom_self (r : String) (ms : List String)
    (store : PresenceStore) :
    Presence.membersIn (Presence.setRoom r ms store) r = ms := by
  simp [Presence.membersIn, Presence.setRoom]

theorem membersIn_setRoom_ne (r r' : String) (hne : r ≠ r') (ms : List String)
    (store : PresenceStore) :
    Presence.membersIn (Presence.setRoom r' ms store) r =
      Presence.membersIn store r := by
  have hb : (r == r') = false := by simp [hne]
  simp [Presence.membersIn, Presence.setRoom, List.lookup_cons, hb,
    lookup_filter_ne store r r' hne]

theorem membersIn_delRoom_self (r : String) (store : PresenceStore) :
    Presence.membersIn (Presence.delRoom r store) r = [] := by
  simp [Presence.membersIn, Presence.delRoom, lookup_filter_self]

theorem membersIn_delRoom_ne (r r' : String) (hne : r ≠ r')
    (store : PresenceStore) :
    Presence.membersIn (Presence.delRoom r' store) r =
      Presence.membersIn store r := by
  simp [Presence.membersIn, Presence.delRoom, lookup_filter_ne store r r' hne]

theorem membersIn_stepOp_join_self (store : PresenceStore) (r h : String) :
    Presence.membersIn (Presence.stepOp store (PresenceOp.join r h)) r =
      (if h ∈ Presence.membersIn store r then Presence.membersIn store r
       else Presence.membersIn store r ++ [h]) := by
  simp only [Presence.stepOp, Presence.join]
  rw [membersIn_setRoom_self]
  rfl

theorem membersIn_stepOp_join_ne (store : PresenceStore) (r r' h : String)
    (hne : r ≠ r') :
    Presence.membersIn (Presence.stepOp store (PresenceOp.join r' h)) r =
      Presence.membersIn store r := by
  simp only [Presence.stepOp, Presence.join]
  exact membersIn_setRoom_ne r r' hne _ store

theorem membersIn_stepOp_leave_self (store : PresenceStore) (r h : String) :
    Presence.membersIn (Presence.stepOp store (PresenceOp.leave r h)) r =
      (Presence.membersIn store r).erase h := by
  simp only [Presence.stepOp, Presence.leave]
  rcases hl : store.lookup r with _ | ms
  · simp [Presence.membersIn, hl]
  · dsimp only
    by_cases he : ms.erase h = []
    · rw [if_pos he]
      show Presence.membersIn (Presence.delRoom r store) r =
        (Presence.membersIn store r).erase h
      rw [membersIn_delRoom_self]
      simp [Presence.membersIn, hl, he]
    · rw [if_neg he]
      show Presence.membersIn (Presence.setRoom r (ms.erase h) store) r =
        (Presence.membersIn store r).erase h
      rw [membersIn_setRoom_self]
      simp [Presence.membersIn, hl]

theorem membersIn_stepOp_leave_ne (store : PresenceStore) (r r' h : String)
    (hne : r ≠ r') :
    Presence.membersIn (Presence.stepOp store (PresenceOp.leave r' h)) r =
      Presence.membersIn store r := by
  simp only [Presence.stepOp, Presence.leave]
  rcases hl : store.lookup r' with _ | ms
  · rfl
  · dsimp only
    by_cases he : ms.erase h = []
    · rw [if_pos he]
      exact membersIn_delRoom_ne r r' hne store
    · rw [if_neg he]
      exact membersIn_setRoom_ne r r' hne _ store

theorem run_concat (ops : List PresenceOp) (op : PresenceOp) :
    Presence.run (ops ++ [op]) = Presence.stepOp (Presence.run ops) op :=
  List.foldl_concat _ _ _ _

theorem nodup_membersIn_run (ops : List PresenceOp) (r : String) :
    (Presence.membersIn (Presence.run ops) r).Nodup := by
  induction ops using List.reverseRecOn with
  | nil => simp [Presence.run, Presence.membersIn]
  | append_singleton ops op ih =>
    rw [run_concat]
    cases op with
    | join r' h =>
      by_cases hr : r' = r
      · subst hr
        rw [membersIn_stepOp_join_self]
        by_cases hm : h ∈ Presence.membersIn (Presence.run ops) r'
        · simpa [hm] using ih
        · simp only [hm, if_neg hm]
          simp [List.nodup_append, ih, hm]
      · rw [membersIn_stepOp_join_ne _ _ _ _ (fun hh => hr hh.symm)]
        exact ih
    | leave r' h =>
      by_cases hr : r' = r
      · subst hr
        rw [membersIn_stepOp_leave_self]
        exact List.Nodup.erase h ih
      · rw [membersIn_stepOp_leave_ne _ _ _ _ (fun hh => hr hh.symm)]
        exact ih

theorem lastIsJoin_concat (ops : List PresenceOp) (op : PresenceOp)
    (r h : String) :
    lastIsJoin (ops ++ [op]) r h =
      (if op.targets r h = true then op.isJoin else lastIsJoin ops r h) := by
  by_cases ht : op.targets r h = true
  · simp [lastIsJoin, List.reverse_append, List.find?_cons_of_pos, ht]
  · simp [lastIsJoin, List.reverse_append,
      List.find?_cons_of_neg, ht]

theorem mem_membersIn_run (ops : List PresenceOp) (r h : String) :
    h ∈ Presence.membersIn (Presence.run ops) r ↔ lastIsJoin ops r h = true := by
  induction ops using List.reverseRecOn with
  | nil => simp [Presence.run, Presence.membersIn, lastIsJoin]
  | append_singleton ops op ih =>
    rw [run_concat, lastIsJoin_concat]
    cases op with
    | join r' h' =>
      by_cases hr : r' = r
      · subst hr
        rw [membersIn_stepOp_join_self]
        by_cases hh : h' = h
        · subst hh
          have ht : (PresenceOp.join r' h').targets r' h' = true := by
            simp [PresenceOp.targets]
          rw [if_pos ht]
          by_cases hm : h' ∈ Presence.membersIn (Presence.run ops) r'
          · simp [hm, PresenceOp.isJoin]
          · simp [hm, PresenceOp.isJoin]
        · have ht : (PresenceOp.join r' h').targets r' h = false := by
            simp [PresenceOp.targets, hh]
          rw [ht]
          simp only [Bool.false_eq_true, if_false]
          have hne2 : h ≠ h' := fun hh2 => hh hh2.symm
          by_cases hm : h' ∈ Presence.membersIn (Presence.run ops) r'
          · simp [hm, ih]
          · simp [hm, hne2, ih]
      · have ht : (PresenceOp.join r' h').targets r h = false := by
          simp [PresenceOp.targets, hr]
        rw [ht]
        simp only [Bool.false_eq_true, if_false]
        rw [membersIn_stepOp_join_ne _ _ _ _ (fun hh2 => hr hh2.symm)]
        exact ih
    | leave r' h' =>
      by_cases hr : r' = r
      · subst hr
        rw [membersIn_stepOp_leave_self]
        by_cases hh : h' = h
        · subst hh
          have ht : (PresenceOp.leave r' h').targets r' h' = true := by
            simp [PresenceOp.targets]
          rw [if_pos ht]
          simp [PresenceOp.isJoin,
            List.Nodup.not_mem_erase (nodup_membersIn_run ops r')]
        · have ht : (PresenceOp.leave r' h').targets r' h = false := by
            simp [PresenceOp.targets, hh]
          rw [ht]
          simp only [Bool.false_eq_true, if_false]
          have hne2 : h ≠ h' := fun hh2 => hh hh2.symm
          rw [List.Nodup.mem_erase_iff (nodup_membersIn_run ops r')]
          simp [hne2, ih]
      · have ht : (PresenceOp.leave r' h').targets r h = false := by
          simp [PresenceOp.targets, hr]
        rw [ht]
        simp only [Bool.false_eq_true, if_false]
        rw [membersIn_stepOp_leave_ne _ _ _ _ (fun hh2 => hr hh2.symm)]
        exact ih

theorem lastIsJoin_mem_handlesOf (ops : List PresenceOp) (r h : String)
    (hl : lastIsJoin ops r h = true) : h ∈ handlesOf ops r := by
  unfold lastIsJoin at hl
  rcases hf : ops.reverse.find? (fun op => op.targets r h) with _ | op
  · rw [hf] at hl
    simp at hl
  · rw [hf] at hl
    have hmem : op ∈ ops := List.mem_reverse.mp (List.mem_of_find?_eq_some hf)
    have htar : op.targets r h = true := by
      have hb := List.find?_some hf
      simpa using hb
    unfold handlesOf
    rw [List.mem_dedup]
    apply List.mem_filterMap.mpr
    refine ⟨op, hmem, ?_⟩
    cases op with
    | join r' h' =>
      simp only [PresenceOp.targets, Bool.and_eq_true, decide_eq_true_eq] at htar
      simp [htar.1, htar.2]
    | leave r' h' =>
      simp only [PresenceOp.targets, Bool.and_eq_true, decide_eq_true_eq] at htar
      simp [htar.1, htar.2]

theorem count_run_eq (ops : List PresenceOp) (r : String) :
    Presence.count r (Presence.run ops) =
      ((handlesOf ops r).filter fun h => lastIsJoin ops r h).length := by
  have hL : (Presence.membersIn (Presence.run ops) r).Nodup :=
    nodup_membersIn_run ops r
  have hF : ((handlesOf ops r).filter fun h => lastIsJoin ops r h).Nodup :=
    List.Nodup.filter _ (List.nodup_dedup _)
  have hiff : ∀ a, a ∈ Presence.membersIn (Presence.run ops) r ↔
      a ∈ (handlesOf ops r).filter fun h => lastIsJoin ops r h := by
    intro a
    rw [mem_membersIn_run, List.mem_filter]
    constructor
    · intro hl
      exact ⟨lastIsJoin_mem_handlesOf ops r a hl, hl⟩
    · intro hp
      exact hp.2
  have hperm := (List.perm_ext_iff_of_nodup hL hF).mpr hiff
  simpa [Presence.count, Presence.membersIn] using hperm.length_eq

theorem setRoom_idem (r : String) (ms : List String) (store : PresenceStore) :
    Presence.setRoom r ms (Presence.setRoom r ms store) =
      Presence.setRoom r ms store := by
  unfold Presence.setRoom
  rw [List.filter_cons, keyIsNot_eq_false, if_neg (by simp), List.filter_filter]
  simp [Bool.and_self]

theorem join_idem (r h : String) (store : PresenceStore) :
    (Presence.join r h ((Presence.join r h store).1)).1 =
      (Presence.join r h store).1 := by
  have h1 : (Presence.join r h store).1 =
      Presence.setRoom r
        (if h ∈ Presence.membersIn store r then Presence.membersIn store r
         else Presence.membersIn store r ++ [h]) store := rfl
  set ms' := (if h ∈ Presence.membersIn store r then Presence.membersIn store r
      else Presence.membersIn store r ++ [h]) with hms
  have hmem : h ∈ ms' := by
    rw [hms]
    by_cases hm : h ∈ Presence.membersIn store r
    · simp [hm]
    · simp [hm]
  rw [h1]
  have h2 : Presence.membersIn (Presence.setRoom r ms' store) r = ms' :=
    membersIn_setRoom_self r ms' store
  simp only [Presence.join]
  rw [show ((Presence.setRoom r ms' store).lookup r).getD [] = ms' from h2]
  rw [if_pos hmem]
  exact setRoom_idem r ms' store

theorem count_setRoom_self (r : String) (ms : List String)
    (store : PresenceStore) :
    Presence.count r (Presence.setRoom r ms store) = ms.length := by
  have h := membersIn_setRoom_self r ms store
  simpa [Presence.count, Presence.membersIn] using congrArg List.length h

theorem join_count (r h : String) (store : PresenceStore) :
    (Presence.join r h store).2 =
      Presence.count r ((Presence.join r h store).1) := by
  simp only [Presence.join]
  rw [count_setRoom_self]

theorem leave_empty_deletes (r h : String) (store : PresenceStore)
    (he : (Presence.membersIn store r).erase h = []) :
    ((Presence.leave r h store).1).lookup r = none := by
  simp only [Presence.leave]
  rcases hl : store.lookup r with _ | ms
  · exact hl
  · dsimp only
    have hms : ms.erase h = [] := by
      have hmi : Presence.membersIn store r = ms := by
        simp [Presence.membersIn, hl]
      rwa [hmi] at he
    rw [if_pos hms]
    exact lookup_filter_self store r

theorem count_no_entry (r : String) (store : PresenceStore)
    (hl : store.lookup r = none) : Presence.count r store = 0 := by
  simp [Presence.count, hl]

/-- C10, as stated, is false: with join's set semantics, the sequence
`join(r, h); join(r, h); leave(r, h)` leaves the room empty
(`count = 0`), yet handle `h` has two joins and one leave, so the claim's
"number of distinct handles with more joins than leaves" is 1. -/
theorem C10_counterexample :
    Presence.count "r" (Presence.run
      [PresenceOp.join "r" "h", PresenceOp.join "r" "h",
       PresenceOp.leave "r" "h"]) = 0
    ∧ (moreJoinsHandles
        [PresenceOp.join "r" "h", PresenceOp.join "r" "h",
         PresenceOp.leave "r" "h"] "r").length = 1 := by
  decide

/-- C10 amended: for every room and every sequence of join/leave calls on
the Presence Tracker (modelled from spec §4.1), `count(room_id)` after the
sequence equals the number of distinct handles whose most recent call
targeting that room and handle is a join (NOT "more joins than leaves",
which overcounts once idempotent joins collapse); join is idempotent and
returns the new membership count, leave deletes the room entry when the
set becomes empty, and count returns 0 when no entry exists. -/
theorem C10_presence_amended (ops : List PresenceOp) (r h : String)
    (store : PresenceStore) :
    Presence.count r (Presence.run ops) =
      ((handlesOf ops r).filter fun h0 => lastIsJoin ops r h0).length
    ∧ (Presence.join r h ((Presence.join r h store).1)).1 =
        (Presence.join r h store).1
    ∧ (Presence.join r h store).2 =
        Presence.count r ((Presence.join r h store).1)
    ∧ ((Presence.membersIn store r).erase h = [] →
        ((Presence.leave r h store).1).lookup r = none)
    ∧ (store.lookup r = none → Presence.count r store = 0) :=
  ⟨count_run_eq ops r, join_idem r h store, join_count r h store,
   leave_empty_deletes r h store, count_no_entry r store⟩

/-- Witness for C10 at a concrete one-join sequence and store. -/
theorem C10_presence_amended_witness :
    (Presence.membersIn (Presence.run [PresenceOp.join "r" "h"]) "r").erase "h" = []
    ∧ ((Presence.leave "r" "h"
        (Presence.run [PresenceOp.join "r" "h"])).1).lookup "r" = none :=
  ⟨by decide,
   (C10_presence_amended [PresenceOp.join "r" "h"] "r" "h"
      (Presence.run [PresenceOp.join "r" "h"])).2.2.2.1 (by decide)⟩
